import Mathlib

/-!
Verification development for the ShaderToy GLSL transpiler core of `shaderbg`.

This file gives a shallow embedding of the shader-source transformation
pipeline (`src/shadertoy`): the comment stripper and preprocessor
(`glsl_preprocessor.rs`, `glsl_utils.rs`), the bracket-depth tracker
(`glsl_depth_tracker.rs`), the declaration initializer
(`glsl_initializer.rs`) and the version / reserved-word adapter (`mod.rs`),
together with theorems about the specified behavior.

Modelling conventions:
* Source text is modelled as `List Char` (`Chars`).  The Rust code scans
  UTF-8 byte buffers; for the ASCII characters all comparisons go through,
  the byte-level and char-level scans agree, and non-ASCII characters fall
  into the same default branches in both.
* Rust `i64`/`i32` arithmetic is modelled on `Int`, with explicit wrapping
  (`% 2^64`, shifted) exactly where the Rust code uses `wrapping_*`
  operations or where release-mode overflow can occur.
* Loops whose progress is not structural are given an explicit fuel
  parameter, always called with a fuel that dominates the loop's real
  iteration count (each such loop strictly advances an index bounded by the
  input length, or shrinks the scanned text).  Macro expansion and struct
  default synthesis can genuinely diverge in the Rust code (cyclic macros /
  cyclic struct definitions); there the fuel cut-off models the divergence.
* A Rust panic (out-of-bounds index, invalid slice range) is modelled
  explicitly: fallible entry points return a result type with a dedicated
  `panicked` constructor.
-/

namespace ShaderBG

/-- Characters of a source string. -/
abbrev Chars := List Char

/-- Rust `char::is_whitespace` / `u8::is_ascii_whitespace`, restricted to the
ASCII range (the only characters the transpiler ever treats specially). -/
def rustIsWs (c : Char) : Bool :=
  c = ' ' || c = '\t' || c = '\n' || c = '\r' || c = '\x0b' || c = '\x0c'

/-- `str::trim_start`. -/
def trimLeft (l : Chars) : Chars := l.dropWhile rustIsWs

/-- `str::trim_end`. -/
def trimRight (l : Chars) : Chars := (l.reverse.dropWhile rustIsWs).reverse

/-- `str::trim`. -/
def rustTrim (l : Chars) : Chars := trimRight (trimLeft l)

/-- Identifier character in the transpiler's sense:
ASCII alphanumeric or underscore. -/
def isIdentChar (c : Char) : Bool := c.isAlphanum || c = '_'

/-- Identifier start: ASCII alphabetic or underscore. -/
def isIdentStart (c : Char) : Bool := c.isAlpha || c = '_'

/-- Split a character list at every occurrence of `sep` (separator dropped). -/
def splitOnChar (sep : Char) (l : Chars) : List Chars :=
  l.splitOnP (fun c => c = sep)

/-- Rust `str::split_whitespace`: maximal non-whitespace runs. -/
def splitWs (l : Chars) : List Chars :=
  (l.splitOnP rustIsWs).filter (fun p => p ≠ [])

/-- Whether `pre` is a prefix of `l`. -/
def charsStartsWith (l pre : Chars) : Bool := l.take pre.length = pre

/-- `String.replace_range start..stop with r` on a character list. -/
def replaceRange (s : Chars) (start stop : Nat) (r : Chars) : Chars :=
  s.take start ++ r ++ s.drop stop

/-- Join pieces with a separator (Rust `Vec::join`). -/
def joinWith (sep : Chars) : List Chars → Chars
  | [] => []
  | [p] => p
  | p :: ps => p ++ sep ++ joinWith sep ps

/-! ## Machine-integer model -/

/-- Smallest `i32`. -/
def i32Min : Int := -2147483648

/-- Rust `i32::saturating_sub(self, 1)`: saturates at `i32::MIN`
(not at zero). -/
def i32SatSub1 (x : Int) : Int := max (x - 1) i32Min

/-- Reduce an integer to the `i64` range by two's-complement wrapping. -/
def wrap64 (x : Int) : Int := (x + 9223372036854775808) % 18446744073709551616 - 9223372036854775808

/-- Largest `i64`. -/
def i64Max : Int := 9223372036854775807

/-- `i64::wrapping_add`. -/
def wrapAdd (a b : Int) : Int := wrap64 (a + b)

/-- `i64::wrapping_sub`. -/
def wrapSub (a b : Int) : Int := wrap64 (a - b)

/-- `i64::wrapping_mul`. -/
def wrapMul (a b : Int) : Int := wrap64 (a * b)

/-- `i64::wrapping_div` (truncating division; `MIN / -1` wraps). -/
def wrapDiv (a b : Int) : Int := wrap64 (Int.tdiv a b)

/-- `i64::wrapping_rem` (truncating remainder). -/
def wrapRem (a b : Int) : Int := wrap64 (Int.tmod a b)

/-- Release-mode `i64` negation (wraps at `i64::MIN`). -/
def wrapNeg (a : Int) : Int := wrap64 (-a)

/-- The effective shift amount of `x.wrapping_shl(r as u32)`:
`r` truncated to `u32`, then masked modulo 64. -/
def shiftAmt (r : Int) : Nat := ((r % 4294967296).toNat) % 64

/-- `i64::wrapping_shl(self, r as u32)`. -/
def wrapShl (a r : Int) : Int := wrap64 (a * 2 ^ shiftAmt r)

/-- `i64::wrapping_shr(self, r as u32)`: arithmetic (sign-extending) shift,
i.e. flooring division by the corresponding power of two. -/
def wrapShr (a r : Int) : Int := wrap64 (Int.fdiv a (2 ^ shiftAmt r))

/-! ## Depth tracker (`glsl_depth_tracker.rs`) -/

/-- `GlslDepthTracker`: brace/bracket/paren depth plus for-loop sub-state. -/
structure GlslDepthTracker where
  brace : Int
  bracket : Int
  paren : Int
  for_loop_depth : Int
  for_loop_part : Int
  deriving Repr, DecidableEq

/-- `GlslDepthTracker::default()`. -/
def GlslDepthTracker.default : GlslDepthTracker := ⟨0, 0, 0, 0, 0⟩

/-- `GlslDepthTracker::update_brackets`.  The closing-delimiter arms use
`i32::saturating_sub(1)`, which saturates at `i32::MIN`. -/
def GlslDepthTracker.update_brackets (t : GlslDepthTracker) (c : Char) : GlslDepthTracker :=
  if c = '(' then { t with paren := t.paren + 1 }
  else if c = ')' then { t with paren := i32SatSub1 t.paren }
  else if c = '{' then { t with brace := t.brace + 1 }
  else if c = '}' then { t with brace := i32SatSub1 t.brace }
  else if c = '[' then { t with bracket := t.bracket + 1 }
  else if c = ']' then { t with bracket := i32SatSub1 t.bracket }
  else t

/-- `GlslDepthTracker::update_for_loop`. -/
def GlslDepthTracker.update_for_loop (t : GlslDepthTracker) (c : Char) : GlslDepthTracker :=
  if t.for_loop_depth > 0 then
    if c = ';' ∧ t.for_loop_part < 3 then { t with for_loop_part := t.for_loop_part + 1 }
    else if c = ')' ∧ t.paren = 0 then { t with for_loop_depth := 0, for_loop_part := 0 }
    else t
  else t

/-- `GlslDepthTracker::in_parentheses`. -/
def GlslDepthTracker.in_parentheses (t : GlslDepthTracker) : Bool := t.paren > 0

/-- `GlslDepthTracker::in_square_brackets`. -/
def GlslDepthTracker.in_square_brackets (t : GlslDepthTracker) : Bool := t.bracket > 0

/-- `GlslDepthTracker::at_global_scope`. -/
def GlslDepthTracker.at_global_scope (t : GlslDepthTracker) : Bool :=
  t.brace = 0 && t.paren = 0 && t.bracket = 0

/-- `GlslDepthTracker::in_for_loop_initialization`. -/
def GlslDepthTracker.in_for_loop_initialization (t : GlslDepthTracker) : Bool :=
  t.for_loop_depth > 0 && t.for_loop_part = 1

/-- `GlslDepthTracker::start_for_loop_tracking`. -/
def GlslDepthTracker.start_for_loop_tracking (t : GlslDepthTracker) : GlslDepthTracker :=
  { t with for_loop_depth := 1, for_loop_part := 1 }

/-- The `PartialEq` implementation: equality ignores the for-loop sub-state. -/
def GlslDepthTracker.bracketEq (a b : GlslDepthTracker) : Bool :=
  a.brace = b.brace && a.bracket = b.bracket && a.paren = b.paren

/-! ## Conditional-expression tokenizer (`GlslPreprocessor::tokenize`) -/

/-- Tokens of the `#if`/`#elif` integer constant-expression language. -/
inductive Token where
  | number (n : Int)
  | op (s : String)
  | lparen
  | rparen
  deriving Repr, DecidableEq

/-- Value of an ASCII digit (radix up to 16). -/
def hexVal (c : Char) : Nat :=
  if c.isDigit then c.toNat - '0'.toNat
  else if 'a' ≤ c ∧ c ≤ 'f' then c.toNat - 'a'.toNat + 10
  else if 'A' ≤ c ∧ c ≤ 'F' then c.toNat - 'A'.toNat + 10
  else 0

/-- Digits folded in the given radix. -/
def digitsToNat (radix : Nat) (ds : Chars) : Nat :=
  ds.foldl (fun acc c => acc * radix + hexVal c) 0

/-- `i64::from_str_radix` / `str::parse::<i64>` on already-validated digits:
fails (overflow) above `i64::MAX`. -/
def parseI64 (radix : Nat) (ds : Chars) : Except Unit Int :=
  let n := digitsToNat radix ds
  if (n : Int) > i64Max then .error () else .ok (n : Int)

def isOctalDigit (c : Char) : Bool := '0' ≤ c ∧ c ≤ '7'

def isHexDigit (c : Char) : Bool := c.isDigit || ('a' ≤ c ∧ c ≤ 'f') || ('A' ≤ c ∧ c ≤ 'F')

/-- One fuelled pass of `GlslPreprocessor::tokenize`; each step consumes at
least one character, so `fuel = length + 1` always suffices. -/
def tokenizeF : Nat → Chars → Except Unit (List Token)
  | 0, _ => .error ()
  | _ + 1, [] => .ok []
  | f + 1, c :: rest =>
    if c = '(' then (tokenizeF f rest).map (Token.lparen :: ·)
    else if c = ')' then (tokenizeF f rest).map (Token.rparen :: ·)
    else if c.isDigit then
      -- hex (0x / 0X) first
      if c = '0' ∧ (rest.head? = some 'x' ∨ rest.head? = some 'X') then
        let hexDigits := (rest.drop 1).takeWhile isHexDigit
        let rest' := (rest.drop 1).dropWhile isHexDigit
        if hexDigits.length = 0 then .error ()
        else
          match parseI64 16 hexDigits with
          | .error _ => .error ()
          | .ok n => (tokenizeF f rest').map (Token.number n :: ·)
      -- octal: leading 0 followed by an octal digit
      else if c = '0' ∧ ((rest.head?).elim false isOctalDigit) = true then
        let octDigits := rest.takeWhile isOctalDigit
        let rest' := rest.dropWhile isOctalDigit
        match parseI64 8 octDigits with
        | .error _ => .error ()
        | .ok n => (tokenizeF f rest').map (Token.number n :: ·)
      -- decimal
      else
        let digits := rest.takeWhile Char.isDigit
        let rest' := rest.dropWhile Char.isDigit
        match parseI64 10 (c :: digits) with
        | .error _ => .error ()
        | .ok n => (tokenizeF f rest').map (Token.number n :: ·)
    else if c = '&' then
      if rest.head? = some '&' then (tokenizeF f (rest.drop 1)).map (Token.op "&&" :: ·)
      else (tokenizeF f rest).map (Token.op "&" :: ·)
    else if c = '|' then
      if rest.head? = some '|' then (tokenizeF f (rest.drop 1)).map (Token.op "||" :: ·)
      else (tokenizeF f rest).map (Token.op "|" :: ·)
    else if c = '<' then
      if rest.head? = some '<' then (tokenizeF f (rest.drop 1)).map (Token.op "<<" :: ·)
      else if rest.head? = some '=' then (tokenizeF f (rest.drop 1)).map (Token.op "<=" :: ·)
      else (tokenizeF f rest).map (Token.op "<" :: ·)
    else if c = '>' then
      if rest.head? = some '>' then (tokenizeF f (rest.drop 1)).map (Token.op ">>" :: ·)
      else if rest.head? = some '=' then (tokenizeF f (rest.drop 1)).map (Token.op ">=" :: ·)
      else (tokenizeF f rest).map (Token.op ">" :: ·)
    else if c = '=' then
      if rest.head? = some '=' then (tokenizeF f (rest.drop 1)).map (Token.op "==" :: ·)
      else .error ()
    else if c = '!' then
      if rest.head? = some '=' then (tokenizeF f (rest.drop 1)).map (Token.op "!=" :: ·)
      else (tokenizeF f rest).map (Token.op "!" :: ·)
    else if c = '+' then (tokenizeF f rest).map (Token.op "+" :: ·)
    else if c = '-' then (tokenizeF f rest).map (Token.op "-" :: ·)
    else if c = '*' then (tokenizeF f rest).map (Token.op "*" :: ·)
    else if c = '/' then (tokenizeF f rest).map (Token.op "/" :: ·)
    else if c = '%' then (tokenizeF f rest).map (Token.op "%" :: ·)
    else if c = '^' then
      if rest.head? = some '^' then (tokenizeF f (rest.drop 1)).map (Token.op "^^" :: ·)
      else (tokenizeF f rest).map (Token.op "^" :: ·)
    else if c = '~' then (tokenizeF f rest).map (Token.op "~" :: ·)
    else .error ()

/-- `GlslPreprocessor::tokenize`. -/
def tokenize (cs : Chars) : Except Unit (List Token) := tokenizeF (cs.length + 1) cs

/-! ## Recursive-descent evaluator (`GlslPreprocessor::parse_*`)

Each parser takes the token list and the current index and returns the
evaluated value together with the updated index.  Mutual recursion (the
precedence chain plus the `primary → expression` and `unary → unary` loops)
is fuelled; every cycle in the call graph consumes at least one token, so a
fuel linear in the token count suffices. -/

set_option maxHeartbeats 2000000 in
mutual

def parse_expression_f : Nat → List Token → Nat → Int × Nat
  | 0, _, i => (0, i)
  | f + 1, ts, i => parse_logical_or_f f ts i
  termination_by structural f ts i => f

def parse_logical_or_f : Nat → List Token → Nat → Int × Nat
  | 0, _, i => (0, i)
  | f + 1, ts, i =>
    let (l, j) := parse_logical_and_f f ts i
    lor_loop f l ts j
  termination_by structural f ts i => f

def lor_loop : Nat → Int → List Token → Nat → Int × Nat
  | 0, l, _, i => (l, i)
  | f + 1, l, ts, i =>
    if h : i < ts.length then
      match ts.get ⟨i, h⟩ with
      | .op o =>
        if o = "||" then
          let (r, j) := parse_logical_and_f f ts (i + 1)
          lor_loop f (if l ≠ 0 ∨ r ≠ 0 then 1 else 0) ts j
        else (l, i)
      | _ => (l, i)
    else (l, i)
  termination_by structural f l ts i => f

def parse_logical_and_f : Nat → List Token → Nat → Int × Nat
  | 0, _, i => (0, i)
  | f + 1, ts, i =>
    let (l, j) := parse_logical_xor_f f ts i
    land_loop f l ts j
  termination_by structural f ts i => f

def land_loop : Nat → Int → List Token → Nat → Int × Nat
  | 0, l, _, i => (l, i)
  | f + 1, l, ts, i =>
    if h : i < ts.length then
      match ts.get ⟨i, h⟩ with
      | .op o =>
        if o = "&&" then
          let (r, j) := parse_logical_xor_f f ts (i + 1)
          land_loop f (if l ≠ 0 ∧ r ≠ 0 then 1 else 0) ts j
        else (l, i)
      | _ => (l, i)
    else (l, i)
  termination_by structural f l ts i => f

def parse_logical_xor_f : Nat → List Token → Nat → Int × Nat
  | 0, _, i => (0, i)
  | f + 1, ts, i =>
    let (l, j) := parse_bitwise_or_f f ts i
    lxor_loop f l ts j
  termination_by structural f ts i => f

def lxor_loop : Nat → Int → List Token → Nat → Int × Nat
  | 0, l, _, i => (l, i)
  | f + 1, l, ts, i =>
    if h : i < ts.length then
      match ts.get ⟨i, h⟩ with
      | .op o =>
        if o = "^^" then
          let (r, j) := parse_bitwise_or_f f ts (i + 1)
          lxor_loop f (if (l ≠ 0) ≠ (r ≠ 0) then 1 else 0) ts j
        else (l, i)
      | _ => (l, i)
    else (l, i)
  termination_by structural f l ts i => f

def parse_bitwise_or_f : Nat → List Token → Nat → Int × Nat
  | 0, _, i => (0, i)
  | f + 1, ts, i =>
    let (l, j) := parse_bitwise_xor_f f ts i
    bor_loop f l ts j
  termination_by structural f ts i => f

def bor_loop : Nat → Int → List Token → Nat → Int × Nat
  | 0, l, _, i => (l, i)
  | f + 1, l, ts, i =>
    if h : i < ts.length then
      match ts.get ⟨i, h⟩ with
      | .op o =>
        if o = "|" then
          let (r, j) := parse_bitwise_xor_f f ts (i + 1)
          bor_loop f (Int.lor l r) ts j
        else (l, i)
      | _ => (l, i)
    else (l, i)
  termination_by structural f l ts i => f

def parse_bitwise_xor_f : Nat → List Token → Nat → Int × Nat
  | 0, _, i => (0, i)
  | f + 1, ts, i =>
    let (l, j) := parse_equality_f f ts i
    bxor_loop f l ts j
  termination_by structural f ts i => f

def bxor_loop : Nat → Int → List Token → Nat → Int × Nat
  | 0, l, _, i => (l, i)
  | f + 1, l, ts, i =>
    if h : i < ts.length then
      match ts.get ⟨i, h⟩ with
      | .op o =>
        if o = "^" then
          let (r, j) := parse_equality_f f ts (i + 1)
          bxor_loop f (Int.xor l r) ts j
        else (l, i)
      | _ => (l, i)
    else (l, i)
  termination_by structural f l ts i => f

def parse_equality_f : Nat → List Token → Nat → Int × Nat
  | 0, _, i => (0, i)
  | f + 1, ts, i =>
    let (l, j) := parse_bitwise_and_f f ts i
    eq_loop f l ts j
  termination_by structural f ts i => f

def eq_loop : Nat → Int → List Token → Nat → Int × Nat
  | 0, l, _, i => (l, i)
  | f + 1, l, ts, i =>
    if h : i < ts.length then
      match ts.get ⟨i, h⟩ with
      | .op o =>
        if o = "==" then
          let (r, j) := parse_bitwise_and_f f ts (i + 1)
          eq_loop f (if l = r then 1 else 0) ts j
        else if o = "!=" then
          let (r, j) := parse_bitwise_and_f f ts (i + 1)
          eq_loop f (if l ≠ r then 1 else 0) ts j
        else (l, i)
      | _ => (l, i)
    else (l, i)
  termination_by structural f l ts i => f

def parse_bitwise_and_f : Nat → List Token → Nat → Int × Nat
  | 0, _, i => (0, i)
  | f + 1, ts, i =>
    let (l, j) := parse_relational_f f ts i
    band_loop f l ts j
  termination_by structural f ts i => f

def band_loop : Nat → Int → List Token → Nat → Int × Nat
  | 0, l, _, i => (l, i)
  | f + 1, l, ts, i =>
    if h : i < ts.length then
      match ts.get ⟨i, h⟩ with
      | .op o =>
        if o = "&" then
          let (r, j) := parse_relational_f f ts (i + 1)
          band_loop f (Int.land l r) ts j
        else (l, i)
      | _ => (l, i)
    else (l, i)
  termination_by structural f l ts i => f

def parse_relational_f : Nat → List Token → Nat → Int × Nat
  | 0, _, i => (0, i)
  | f + 1, ts, i =>
    let (l, j) := parse_shift_f f ts i
    rel_loop f l ts j
  termination_by structural f ts i => f

def rel_loop : Nat → Int → List Token → Nat → Int × Nat
  | 0, l, _, i => (l, i)
  | f + 1, l, ts, i =>
    if h : i < ts.length then
      match ts.get ⟨i, h⟩ with
      | .op o =>
        if o = "<" then
          let (r, j) := parse_shift_f f ts (i + 1)
          rel_loop f (if l < r then 1 else 0) ts j
        else if o = "<=" then
          let (r, j) := parse_shift_f f ts (i + 1)
          rel_loop f (if l ≤ r then 1 else 0) ts j
        else if o = ">" then
          let (r, j) := parse_shift_f f ts (i + 1)
          rel_loop f (if l > r then 1 else 0) ts j
        else if o = ">=" then
          let (r, j) := parse_shift_f f ts (i + 1)
          rel_loop f (if l ≥ r then 1 else 0) ts j
        else (l, i)
      | _ => (l, i)
    else (l, i)
  termination_by structural f l ts i => f

def parse_shift_f : Nat → List Token → Nat → Int × Nat
  | 0, _, i => (0, i)
  | f + 1, ts, i =>
    let (l, j) := parse_additive_f f ts i
    shift_loop f l ts j
  termination_by structural f ts i => f

def shift_loop : Nat → Int → List Token → Nat → Int × Nat
  | 0, l, _, i => (l, i)
  | f + 1, l, ts, i =>
    if h : i < ts.length then
      match ts.get ⟨i, h⟩ with
      | .op o =>
        if o = "<<" then
          let (r, j) := parse_additive_f f ts (i + 1)
          shift_loop f (wrapShl l r) ts j
        else if o = ">>" then
          let (r, j) := parse_additive_f f ts (i + 1)
          shift_loop f (wrapShr l r) ts j
        else (l, i)
      | _ => (l, i)
    else (l, i)
  termination_by structural f l ts i => f

def parse_additive_f : Nat → List Token → Nat → Int × Nat
  | 0, _, i => (0, i)
  | f + 1, ts, i =>
    let (l, j) := parse_multiplicative_f f ts i
    add_loop f l ts j
  termination_by structural f ts i => f

def add_loop : Nat → Int → List Token → Nat → Int × Nat
  | 0, l, _, i => (l, i)
  | f + 1, l, ts, i =>
    if h : i < ts.length then
      match ts.get ⟨i, h⟩ with
      | .op o =>
        if o = "+" then
          let (r, j) := parse_multiplicative_f f ts (i + 1)
          add_loop f (wrapAdd l r) ts j
        else if o = "-" then
          let (r, j) := parse_multiplicative_f f ts (i + 1)
          add_loop f (wrapSub l r) ts j
        else (l, i)
      | _ => (l, i)
    else (l, i)
  termination_by structural f l ts i => f

def parse_multiplicative_f : Nat → List Token → Nat → Int × Nat
  | 0, _, i => (0, i)
  | f + 1, ts, i =>
    let (l, j) := parse_unary_f f ts i
    mul_loop f l ts j
  termination_by structural f ts i => f

def mul_loop : Nat → Int → List Token → Nat → Int × Nat
  | 0, l, _, i => (l, i)
  | f + 1, l, ts, i =>
    if h : i < ts.length then
      match ts.get ⟨i, h⟩ with
      | .op o =>
        if o = "*" then
          let (r, j) := parse_unary_f f ts (i + 1)
          mul_loop f (wrapMul l r) ts j
        else if o = "/" then
          let (r, j) := parse_unary_f f ts (i + 1)
          mul_loop f (if r = 0 then 0 else wrapDiv l r) ts j
        else if o = "%" then
          let (r, j) := parse_unary_f f ts (i + 1)
          mul_loop f (if r = 0 then 0 else wrapRem l r) ts j
        else (l, i)
      | _ => (l, i)
    else (l, i)
  termination_by structural f l ts i => f

def parse_unary_f : Nat → List Token → Nat → Int × Nat
  | 0, _, i => (0, i)
  | f + 1, ts, i =>
    if h : i < ts.length then
      match ts.get ⟨i, h⟩ with
      | .op o =>
        if o = "~" then
          let (v, j) := parse_unary_f f ts (i + 1)
          (-v - 1, j)
        else if o = "!" then
          let (v, j) := parse_unary_f f ts (i + 1)
          (if v = 0 then 1 else 0, j)
        else if o = "-" then
          let (v, j) := parse_unary_f f ts (i + 1)
          (wrapNeg v, j)
        else if o = "+" then
          parse_unary_f f ts (i + 1)
        else parse_primary_f f ts i
      | _ => parse_primary_f f ts i
    else (0, i)
  termination_by structural f ts i => f

def parse_primary_f : Nat → List Token → Nat → Int × Nat
  | 0, _, i => (0, i)
  | f + 1, ts, i =>
    if h : i < ts.length then
      match ts.get ⟨i, h⟩ with
      | .number n => (n, i + 1)
      | .lparen =>
        let (v, j) := parse_expression_f f ts (i + 1)
        if h2 : j < ts.length then
          if ts.get ⟨j, h2⟩ = Token.rparen then (v, j + 1) else (v, j)
        else (v, j)
      | _ => (0, i + 1)
    else (0, i)
  termination_by structural f ts i => f

end

/-- `GlslPreprocessor::parse_expression` started at index 0, with a fuel that
dominates the maximal call depth (precedence chain of 14 levels between any
two token consumptions). -/
def parse_expression (ts : List Token) : Int × Nat :=
  parse_expression_f (14 * ts.length + 28) ts 0

/-- Tail of `GlslPreprocessor::evaluate_if_expr` after `defined` replacement,
macro expansion and whitespace stripping: tokenize, reject empty token lists,
parse, and require that all tokens were consumed and the value is nonzero. -/
def evaluate_parsed_condition (cs : Chars) : Bool :=
  match tokenize cs with
  | .error _ => false
  | .ok tokens =>
    if tokens = [] then false
    else
      let (result, index) := parse_expression tokens
      decide (index = tokens.length) && decide (result ≠ 0)

/-! ## Macro definitions and expansion (`GlslPreprocessor::expand_macros`) -/

/-- `MacroDef`: optional parameter list (`none` = object-like) and body. -/
structure MacroDef where
  params : Option (List Chars)
  body : Chars
  deriving Repr, DecidableEq

/-- The `defines` map, modelled as an association list (`HashMap` iteration
order does not influence behavior: the expander always picks the strictly
leftmost valid match, and two distinct whole-word macro names can never match
at the same position). -/
abbrev Defines := List (Chars × MacroDef)

def containsKey (m : Defines) (k : Chars) : Bool := m.any (fun p => p.1 = k)

def lookupKey : Defines → Chars → Option MacroDef
  | [], _ => none
  | (k', v) :: rest, k => if k' = k then some v else lookupKey rest k

/-- `HashMap::insert` (replaces an existing binding). -/
def insertKey (m : Defines) (k : Chars) (v : MacroDef) : Defines :=
  if containsKey m k then m.map (fun p => if p.1 = k then (k, v) else p)
  else m ++ [(k, v)]

/-- `HashMap::remove`. -/
def removeKey (m : Defines) (k : Chars) : Defines := m.filter (fun p => p.1 ≠ k)

/-- `str::match_indices`: start positions of non-overlapping occurrences of
`pat`, leftmost first.  (Macro names are never empty.) -/
def occurrencesF : Nat → Chars → Chars → Nat → List Nat
  | 0, _, _, _ => []
  | f + 1, pat, s, pos =>
    if pat = [] then []
    else if charsStartsWith s pat then
      pos :: occurrencesF f pat (s.drop pat.length) (pos + pat.length)
    else
      match s with
      | [] => []
      | _ :: rest => occurrencesF f pat rest (pos + 1)

def occurrences (pat s : Chars) : List Nat := occurrencesF (s.length + 1) pat s 0

/-- `GlslPreprocessor::parse_macro_args`, zero-argument case: only whitespace
may appear between the parentheses. -/
def zero_arg_scan : Chars → Nat → Nat → Option (Nat × List Chars)
  | [], _, _ => none
  | c :: rest, i, base =>
    if c = ')' then some (base + i + 1, [])
    else if rustIsWs c then zero_arg_scan rest (i + 1) base
    else none

/-- `GlslPreprocessor::parse_macro_args`, positive-arity case: balanced-paren
scan splitting arguments at top-level commas. -/
def arg_scan : Chars → Nat → Nat → Nat → Chars → List Chars → Nat → Option (Nat × List Chars)
  | [], _, _, _, _, _, _ => none
  | c :: rest, i, base, level, cur, args, argc =>
    if c = ')' then
      if level = 1 then
        let args' := args ++ [rustTrim cur]
        if args'.length = argc then some (base + i + 1, args') else none
      else arg_scan rest (i + 1) base (level - 1) (cur ++ [c]) args argc
    else if c = '(' then arg_scan rest (i + 1) base (level + 1) (cur ++ [c]) args argc
    else if c = ',' then
      if level = 1 then arg_scan rest (i + 1) base level [] (args ++ [rustTrim cur]) argc
      else arg_scan rest (i + 1) base level (cur ++ [c]) args argc
    else arg_scan rest (i + 1) base level (cur ++ [c]) args argc

/-- `GlslPreprocessor::parse_macro_args`. -/
def parse_macro_args (line : Chars) (start_offset : Nat) (arg_count : Nat) :
    Option (Nat × List Chars) :=
  let slice := line.drop start_offset
  let wsLen := (slice.takeWhile rustIsWs).length
  match slice.drop wsLen with
  | '(' :: rest =>
    if arg_count = 0 then zero_arg_scan rest (wsLen + 1) start_offset
    else arg_scan rest (wsLen + 1) start_offset 1 [] [] arg_count
  | _ => none

/-- Stable insert for the longest-first parameter ordering
(`sort_by_key(Reverse(len))` is a stable sort). -/
def insertByLenDesc (x : Chars) : List Chars → List Chars
  | [] => [x]
  | y :: ys => if y.length ≤ x.length then x :: y :: ys else y :: insertByLenDesc x ys

def sortParamsDesc (params : List Chars) : List Chars := params.foldr insertByLenDesc []

/-- Whole-word test used for parameter substitution and reserved-word
renaming: the regexes are of the shape `\bWORD\b` where `WORD` starts and
ends with identifier characters, so the boundary conditions reduce to
"neighbouring character is not an identifier character". -/
def findParamMatch (sorted : List Chars) (prev : Option Char) (s : Chars) : Option Chars :=
  sorted.find? (fun p =>
    charsStartsWith s p &&
    (match prev with | none => true | some pc => !(isIdentChar pc)) &&
    (match (s.drop p.length).head? with | none => true | some nc => !(isIdentChar nc)))

/-- Scanner for `GlslPreprocessor::replace_params`: leftmost-first,
longest-alternative-first, non-overlapping replacement of parameters by the
argument at the parameter's position in the original list. -/
def rp_scan : Nat → List Chars → List Chars → List Chars → Option Char → Chars → Chars
  | 0, _, _, _, _, s => s
  | f + 1, sorted, params, args, prev, s =>
    match s with
    | [] => []
    | c :: rest =>
      match findParamMatch sorted prev s with
      | some p =>
        let replacement :=
          match params.findIdx? (fun q => q = p) with
          | some idx => args.getD idx p
          | none => p
        replacement ++ rp_scan f sorted params args ((p.getLastD ' ') |> some) (s.drop p.length)
      | none => c :: rp_scan f sorted params args (some c) rest

/-- `GlslPreprocessor::replace_params`.  Empty parameter names (possible only
through degenerate `#define f(,)` forms never exercised here) are skipped. -/
def replace_params (body : Chars) (params : List Chars) (args : List Chars) : Chars :=
  if params = [] then body
  else rp_scan (body.length + 1) (sortParamsDesc (params.filter (fun p => p ≠ []))) params args none body

/-- One candidate check inside `expand_macros`' scan over a single macro. -/
def scanMacroOccurrences (line : Chars) (name : Chars) (d : MacroDef)
    (best0 : Option (Nat × Nat × Chars)) : Option (Nat × Nat × Chars) :=
  (occurrences name line).foldl (fun best start =>
    match best with
    | some b =>
      if start ≥ b.1 then best
      else scanMacroCandidate line name d start best
    | none => scanMacroCandidate line name d start best) best0
where
  scanMacroCandidate (line name : Chars) (d : MacroDef) (start : Nat)
      (best : Option (Nat × Nat × Chars)) : Option (Nat × Nat × Chars) :=
    let endIdx := start + name.length
    let startOk := start = 0 || !(isIdentChar (line.getD (start - 1) ' '))
    let endOk := endIdx = line.length || !(isIdentChar (line.getD endIdx ' '))
    if startOk && endOk then
      match d.params with
      | some ps =>
        match parse_macro_args line endIdx ps.length with
        | some (argsEnd, args) => some (start, argsEnd, replace_params d.body ps args)
        | none => best
      | none => some (start, endIdx, d.body)
    else best

/-- One pass of `expand_macros`: the leftmost valid expansion, if any. -/
def find_earliest_expansion (defs : Defines) (line : Chars) : Option (Nat × Nat × Chars) :=
  defs.foldl (fun best kv => scanMacroOccurrences line kv.1 kv.2 best) none

/-- The `expand_macros` fixpoint loop, fuelled.  The Rust loop genuinely
diverges on cyclic macro definitions; on any input where the fixpoint is
reached within the fuel, this equals the Rust behavior. -/
def expand_macros_f : Nat → Defines → Chars → Chars
  | 0, _, line => line
  | f + 1, defs, line =>
    match find_earliest_expansion defs line with
    | none => line
    | some (s, e, r) => expand_macros_f f defs (replaceRange line s e r)

/-- Canonical fuel for macro expansion. -/
def macroFuel (defs : Defines) (line : Chars) : Nat :=
  line.length + defs.foldl (fun a kv => a + kv.1.length + kv.2.body.length) 0 + 8

/-- `GlslPreprocessor::expand_macros`. -/
def expand_macros (defs : Defines) (line : Chars) : Chars :=
  expand_macros_f (macroFuel defs line) defs line

/-! ## `defined(...)` rewriting inside `#if`/`#elif` conditions -/

/-- Try the parenthesised alternative `defined\s*\(\s*NAME\s*\)` right after
a literal `defined`; returns consumed length and the replacement digit. -/
def definedParen (after : Chars) (defs : Defines) : Option (Nat × Char) :=
  let ws1 := (after.takeWhile rustIsWs).length
  match after.drop ws1 with
  | '(' :: r2 =>
    let ws2 := (r2.takeWhile rustIsWs).length
    let r3 := r2.drop ws2
    match r3.head? with
    | some c =>
      if isIdentStart c then
        let name := r3.takeWhile isIdentChar
        let r4 := r3.drop name.length
        let ws3 := (r4.takeWhile rustIsWs).length
        match (r4.drop ws3).head? with
        | some ')' =>
          some (ws1 + 1 + ws2 + name.length + ws3 + 1,
            if containsKey defs name then '1' else '0')
        | _ => none
      else none
    | none => none
  | _ => none

/-- Try the bare alternative `defined\s+NAME`. -/
def definedSpace (after : Chars) (defs : Defines) : Option (Nat × Char) :=
  let ws1 := (after.takeWhile rustIsWs).length
  if ws1 = 0 then none
  else
    let r := after.drop ws1
    match r.head? with
    | some c =>
      if isIdentStart c then
        let name := r.takeWhile isIdentChar
        some (ws1 + name.length, if containsKey defs name then '1' else '0')
      else none
    | none => none

/-- The `defined_re.replace_all` step of `evaluate_if_expr`. -/
def replace_defined_f : Nat → Defines → Chars → Chars
  | 0, _, s => s
  | f + 1, defs, s =>
    match s with
    | [] => []
    | c :: rest =>
      if charsStartsWith s "defined".data then
        let after := s.drop 7
        match definedParen after defs with
        | some (consumed, repl) => repl :: replace_defined_f f defs (after.drop consumed)
        | none =>
          match definedSpace after defs with
          | some (consumed, repl) => repl :: replace_defined_f f defs (after.drop consumed)
          | none => c :: replace_defined_f f defs rest
      else c :: replace_defined_f f defs rest

def replace_defined (defs : Defines) (s : Chars) : Chars :=
  replace_defined_f (s.length + 1) defs s

/-- `str::replace(char::is_whitespace, "")`. -/
def strip_all_ws (s : Chars) : Chars := s.filter (fun c => !(rustIsWs c))

/-- `GlslPreprocessor::evaluate_if_expr`. -/
def evaluate_if_expr (defs : Defines) (expr : Chars) : Bool :=
  evaluate_parsed_condition (strip_all_ws (expand_macros defs (replace_defined defs expr)))

/-! ## Directive handling and the preprocessor driver (`GlslPreprocessor::run`) -/

/-- `BranchState`. -/
inductive BranchState where
  | searching
  | active
  | done
  deriving Repr, DecidableEq

/-- Preprocessor state; `ifStack`'s head is the top of the Rust `Vec`. -/
structure PPState where
  defines : Defines
  ifStack : List BranchState
  line : Nat
  buffer : Chars
  output : Chars
  deriving Repr, DecidableEq

/-- `GlslPreprocessor::is_active`. -/
def is_active (stack : List BranchState) : Bool :=
  match stack with
  | [] => true
  | s :: _ => s = BranchState.active

/-- `get_directive_name` (assumes the line starts with `#`). -/
def get_directive_name (trimmed : Chars) : Option Chars :=
  let t := (trimLeft (trimmed.drop 1)).takeWhile (fun c => !(rustIsWs c))
  if t = [] then none else some t

/-- The `#define` line parser: the function-like regex
`#\s*define\s+NAME\(params\)\s*BODY` (no whitespace between name and paren,
parameters up to the first `)`), falling back to the object-like regex
`#\s*define\s+NAME\s*BODY`.  Returns `none` when neither matches. -/
def parseDefineLine (line : Chars) : Option (Chars × MacroDef) :=
  let after := trimLeft (line.drop 1)
  if charsStartsWith after "define".data then
    let rest0 := after.drop 6
    match rest0.head? with
    | some c =>
      if rustIsWs c then
        let r := trimLeft rest0
        match r.head? with
        | some c1 =>
          if isIdentStart c1 then
            let name := r.takeWhile isIdentChar
            let afterName := r.drop name.length
            match afterName.head? with
            | some '(' =>
              let afterParen := afterName.drop 1
              let ps := afterParen.takeWhile (fun ch => ch ≠ ')')
              match (afterParen.drop ps.length).head? with
              | some ')' =>
                let params := if ps = [] then [] else (splitOnChar ',' ps).map rustTrim
                some (name, ⟨some params, rustTrim (afterParen.drop (ps.length + 1))⟩)
              | _ => some (name, ⟨none, rustTrim afterName⟩)
            | _ => some (name, ⟨none, rustTrim afterName⟩)
          else none
        | none => none
      else none
    | none => none
  else none

/-- `GlslPreprocessor::handle_define`. -/
def handle_define (st : PPState) (line : Chars) : PPState :=
  match parseDefineLine line with
  | some (name, md) => { st with defines := insertKey st.defines name md }
  | none => st

/-- `GlslPreprocessor::handle_undef`. -/
def handle_undef (st : PPState) (line : Chars) : PPState :=
  match splitWs (trimLeft (line.drop 1)) with
  | p0 :: p1 :: _ =>
    if p0 = "undef".data then { st with defines := removeKey st.defines p1 } else st
  | _ => st

/-- `GlslPreprocessor::handle_ifdef`. -/
def handle_ifdef (st : PPState) (line : Chars) : PPState :=
  match splitWs (trimLeft (line.drop 1)) with
  | p0 :: p1 :: _ =>
    if p0 = "ifdef".data then
      if is_active st.ifStack then
        if containsKey st.defines p1 then
          { st with ifStack := BranchState.active :: st.ifStack }
        else { st with ifStack := BranchState.searching :: st.ifStack }
      else { st with ifStack := BranchState.done :: st.ifStack }
    else st
  | _ => st

/-- `GlslPreprocessor::handle_ifndef`. -/
def handle_ifndef (st : PPState) (line : Chars) : PPState :=
  match splitWs (trimLeft (line.drop 1)) with
  | p0 :: p1 :: _ =>
    if p0 = "ifndef".data then
      if is_active st.ifStack then
        if !(containsKey st.defines p1) then
          { st with ifStack := BranchState.active :: st.ifStack }
        else { st with ifStack := BranchState.searching :: st.ifStack }
      else { st with ifStack := BranchState.done :: st.ifStack }
    else st
  | _ => st

/-- `GlslPreprocessor::handle_if`. -/
def handle_if (st : PPState) (line : Chars) : PPState :=
  if !(is_active st.ifStack) then { st with ifStack := BranchState.done :: st.ifStack }
  else
    let after := trimLeft (line.drop 1)
    let cond := rustTrim (if charsStartsWith after "if".data then after.drop 2 else [])
    if evaluate_if_expr st.defines cond then
      { st with ifStack := BranchState.active :: st.ifStack }
    else { st with ifStack := BranchState.searching :: st.ifStack }

/-- `GlslPreprocessor::handle_elif`. -/
def handle_elif (st : PPState) (line : Chars) : PPState :=
  let condTrue :=
    match st.ifStack with
    | BranchState.searching :: _ =>
      let after := trimLeft (line.drop 1)
      evaluate_if_expr st.defines
        (rustTrim (if charsStartsWith after "elif".data then after.drop 4 else []))
    | _ => false
  match st.ifStack with
  | [] => st
  | top :: rest =>
    if top = BranchState.searching ∧ condTrue = true then
      { st with ifStack := BranchState.active :: rest }
    else if top = BranchState.active then
      { st with ifStack := BranchState.done :: rest }
    else st

/-- `GlslPreprocessor::handle_else`. -/
def handle_else (st : PPState) : PPState :=
  match st.ifStack with
  | [] => st
  | BranchState.searching :: rest => { st with ifStack := BranchState.active :: rest }
  | BranchState.active :: rest => { st with ifStack := BranchState.done :: rest }
  | BranchState.done :: _ => st

/-- `GlslPreprocessor::handle_endif`. -/
def handle_endif (st : PPState) : PPState := { st with ifStack := st.ifStack.tail }

/-- `GlslPreprocessor::handle_error`: the error message computation.
Returns `none` exactly when the Rust code panics: the quote-stripping slice
`error_message[1..len-1]` has crossing bounds when the remaining text is a
single quote character. -/
def handle_error (line : Chars) (lineNo : Nat) : Option (String × Nat) :=
  let after := trimLeft (line.drop 1)
  let em := rustTrim (if charsStartsWith after "error".data then after.drop 5 else [])
  if em = [] then some ("Error directive encountered", lineNo)
  else if (em.head? = some '"' ∧ em.getLast? = some '"') ∨
      (em.head? = some '\'' ∧ em.getLast? = some '\'') then
    if em.length = 1 then none
    else some (⟨(em.drop 1).dropLast⟩, lineNo)
  else some (⟨em⟩, lineNo)

/-- Result of a fallible transformation: `panicked` models a Rust panic. -/
inductive PPResult (α : Type) where
  | panicked
  | failed (msg : String) (line : Nat)
  | ok (val : α)
  deriving Repr, DecidableEq

/-- One iteration of the line loop in `GlslPreprocessor::run`. -/
def stepLine (st0 : PPState) (line : Chars) : PPResult PPState :=
  let st := { st0 with line := st0.line + 1 }
  let trimmed := rustTrim line
  if trimmed.head? = some '#' then
    let st1 :=
      if is_active st.ifStack ∧ st.buffer ≠ [] then
        { st with output := st.output ++ expand_macros st.defines st.buffer, buffer := [] }
      else st
    match get_directive_name trimmed with
    | none => .ok st1
    | some d =>
      if d = "define".data then
        .ok (if is_active st1.ifStack then handle_define st1 trimmed else st1)
      else if d = "undef".data then
        .ok (if is_active st1.ifStack then handle_undef st1 trimmed else st1)
      else if d = "ifdef".data then .ok (handle_ifdef st1 trimmed)
      else if d = "ifndef".data then .ok (handle_ifndef st1 trimmed)
      else if d = "if".data then .ok (handle_if st1 trimmed)
      else if d = "elif".data then .ok (handle_elif st1 trimmed)
      else if d = "else".data then .ok (handle_else st1)
      else if d = "endif".data then .ok (handle_endif st1)
      else if d = "error".data then
        if is_active st1.ifStack then
          match handle_error trimmed st1.line with
          | none => .panicked
          | some (m, n) => .failed m n
        else .ok st1
      else if d = "pragma".data ∨ d = "extension".data ∨ d = "version".data ∨ d = "line".data then
        .ok st1
      else .failed ("Unknown directive (" ++ (⟨d⟩ : String) ++ ")") st1.line
  else if is_active st.ifStack then
    .ok { st with buffer := st.buffer ++ line ++ ['\n'] }
  else .ok st

/-- The line loop of `GlslPreprocessor::run` over a list of lines. -/
def run_lines : PPState → List Chars → PPResult PPState
  | st, [] => .ok st
  | st, l :: ls =>
    match stepLine st l with
    | .ok st' => run_lines st' ls
    | .panicked => .panicked
    | .failed m n => .failed m n

/-- `str::lines`: split on `'\n'`, no entry for a trailing newline. -/
def linesOf (cs : Chars) : List Chars :=
  if cs = [] then []
  else
    let parts := splitOnChar '\n' cs
    if cs.getLast? = some '\n' then parts.dropLast else parts

/-- `source.replace("\r\n", "\n")`. -/
def normCRLF : Chars → Chars
  | '\r' :: '\n' :: rest => '\n' :: normCRLF rest
  | c :: rest => c :: normCRLF rest
  | [] => []

/-- `source.replace("\n\r", "\n")`. -/
def normLFCR : Chars → Chars
  | '\n' :: '\r' :: rest => '\n' :: normLFCR rest
  | c :: rest => c :: normLFCR rest
  | [] => []

/-- `source.replace("\r", "\n")`. -/
def normCR (cs : Chars) : Chars := cs.map (fun c => if c = '\r' then '\n' else c)

/-- `source.replace("\\\n", "")`: line-continuation splicing. -/
def spliceLines : Chars → Chars
  | '\\' :: '\n' :: rest => spliceLines rest
  | c :: rest => c :: spliceLines rest
  | [] => []

/-! ## Comment stripper (`glsl_utils::strip_comments`) -/

inductive SCState where
  | outside
  | inString
  | inLineComment
  | inBlockComment

/-- The 4-state comment-stripping machine of `strip_comments`.  (The Rust
fast path that returns the input unchanged when it contains no `//` or `/*`
coincides with running the machine, which is the identity on such input.) -/
def strip_comments_go : SCState → Chars → Chars
  | .outside, '"' :: rest => '"' :: strip_comments_go .inString rest
  | .outside, '/' :: '/' :: rest => ' ' :: strip_comments_go .inLineComment rest
  | .outside, '/' :: '*' :: rest => ' ' :: strip_comments_go .inBlockComment rest
  | .outside, c :: rest => c :: strip_comments_go .outside rest
  | .inString, '\\' :: rest =>
    '\\' :: (match rest with
      | c :: r => c :: strip_comments_go .inString r
      | [] => [])
  | .inString, '"' :: rest => '"' :: strip_comments_go .outside rest
  | .inString, c :: rest => c :: strip_comments_go .inString rest
  | .inLineComment, '\n' :: rest => '\n' :: strip_comments_go .outside rest
  | .inLineComment, _ :: rest => strip_comments_go .inLineComment rest
  | .inBlockComment, '*' :: '/' :: rest => strip_comments_go .outside rest
  | .inBlockComment, _ :: rest => strip_comments_go .inBlockComment rest
  | _, [] => []

/-- `glsl_utils::strip_comments`. -/
def strip_comments (cs : Chars) : Chars := strip_comments_go .outside cs

/-- `GlslPreprocessor::run` on a character list: line-ending normalization,
continuation splicing, comment stripping, then the line loop and the final
buffer flush. -/
def preprocess_chars (cs : Chars) : PPResult Chars :=
  let processed := strip_comments (spliceLines (normCR (normLFCR (normCRLF cs))))
  let init : PPState := ⟨[], [], 0, [], []⟩
  match run_lines init (linesOf processed) with
  | .panicked => .panicked
  | .failed m n => .failed m n
  | .ok st => .ok (st.output ++ (if st.buffer = [] then [] else expand_macros st.defines st.buffer))

/-- `glsl_preprocessor::preprocess`. -/
def preprocess (source : String) : PPResult String :=
  match preprocess_chars source.data with
  | .panicked => .panicked
  | .failed m n => .failed m n
  | .ok cs => .ok ⟨cs⟩

/-! ## Declaration initializer (`glsl_initializer.rs`) -/

/-- `u8::is_ascii_whitespace` (space, tab, newline, form feed, carriage
return; unlike `char::is_whitespace` it excludes vertical tab). -/
def byteIsWs (c : Char) : Bool :=
  c = ' ' || c = '\t' || c = '\n' || c = '\x0c' || c = '\r'

/-- `StructMember`. -/
structure StructMember where
  type_name : String
  name : String
  array_specifier : Option String
  deriving Repr, DecidableEq

/-- `StructDefinition`. -/
structure StructDefinition where
  name : String
  members : List StructMember
  deriving Repr, DecidableEq

/-- The `struct_defs` map, as an association list. -/
abbrev StructDefs := List (String × StructDefinition)

def lookupStruct : StructDefs → String → Option StructDefinition
  | [], _ => none
  | (k, v) :: rest, t => if k = t then some v else lookupStruct rest t

def containsStruct (m : StructDefs) (k : String) : Bool := m.any (fun p => p.1 = k)

def insertStruct (m : StructDefs) (k : String) (v : StructDefinition) : StructDefs :=
  if containsStruct m k then m.map (fun p => if p.1 = k then (k, v) else p)
  else m ++ [(k, v)]

/-- The dimension extraction of `default_value`: all non-overlapping matches
of `\[\s*(\d+)\s*\]` in the array-specifier string, parsed as numbers. -/
def extract_dims_f : Nat → Chars → List Nat
  | 0, _ => []
  | f + 1, s =>
    match s with
    | [] => []
    | c :: rest =>
      if c = '[' then
        let ws1 := (rest.takeWhile rustIsWs).length
        let r1 := rest.drop ws1
        let ds := r1.takeWhile Char.isDigit
        if ds = [] then extract_dims_f f rest
        else
          let r2 := r1.drop ds.length
          let ws2 := (r2.takeWhile rustIsWs).length
          match (r2.drop ws2).head? with
          | some ']' => digitsToNat 10 ds :: extract_dims_f f (r2.drop (ws2 + 1))
          | _ => extract_dims_f f rest
      else extract_dims_f f rest

def extract_dims (spec : Chars) : List Nat := extract_dims_f (spec.length + 1) spec

/-! The default-value synthesizer.  `default_value`,
`generate_array_initializer_recursive` and `scalar_or_struct_default`
recurse through the struct-definition map; the Rust recursion is unbounded
(it overflows the stack on cyclic struct definitions, which GLSL forbids),
so the model is fuelled, with fuel exhaustion yielding `none`. -/

mutual

def default_value_f : Nat → String → Option String → StructDefs → Option String
  | 0, _, _, _ => none
  | f + 1, type_str, array_spec, defs =>
    match array_spec with
    | some spec =>
      let dims := extract_dims spec.data
      if dims = [] ∨ dims.contains 0 then none
      else generate_array_initializer_recursive_f f type_str dims defs
    | none => scalar_or_struct_default_f f type_str defs
  termination_by structural f t sp defs => f

def generate_array_initializer_recursive_f : Nat → String → List Nat → StructDefs → Option String
  | 0, _, _, _ => none
  | f + 1, base_type, dims, defs =>
    if dims = [] then scalar_or_struct_default_f f base_type defs
    else
      let last_dim := dims.getLastD 0
      let inner_dims := dims.dropLast
      match generate_array_initializer_recursive_f f base_type inner_dims defs with
      | none => none
      | some elem =>
        let inits := List.replicate last_dim elem
        let ctor := base_type ++ String.join (inner_dims.map (fun d => "[" ++ toString d ++ "]"))
        some (ctor ++ "[" ++ toString last_dim ++ "](" ++ String.intercalate ", " inits ++ ")")
  termination_by structural f t dims defs => f

def scalar_or_struct_default_f : Nat → String → StructDefs → Option String
  | 0, _, _ => none
  | f + 1, t, defs =>
    if t = "float" then some "0.0"
    else if t = "int" then some "0"
    else if t = "uint" then some "0u"
    else if t = "bool" then some "false"
    else if charsStartsWith t.data "vec".data ∨ charsStartsWith t.data "mat".data then
      some (t ++ "(0.0)")
    else if charsStartsWith t.data "ivec".data then some (t ++ "(0)")
    else if charsStartsWith t.data "uvec".data then some (t ++ "(0u)")
    else if charsStartsWith t.data "bvec".data then some (t ++ "(false)")
    else
      match lookupStruct defs t with
      | some sd =>
        let member_inits :=
          sd.members.filterMap (fun m => default_value_f f m.type_name m.array_specifier defs)
        if member_inits.length = sd.members.length then
          some (t ++ "(" ++ String.intercalate ", " member_inits ++ ")")
        else none
      | none => none
  termination_by structural f t defs => f

end

/-- Canonical fuel for default-value synthesis (ample for any acyclic
struct nesting appearing in this development). -/
def structFuel (defs : StructDefs) (specLen : Nat) : Nat :=
  8 * (defs.length + 1) + specLen + 8

/-- `glsl_initializer::default_value`. -/
def default_value (t : String) (spec : Option String) (defs : StructDefs) : Option String :=
  default_value_f (structFuel defs (spec.elim 0 String.length)) t spec defs

/-- `glsl_initializer::scalar_or_struct_default`. -/
def scalar_or_struct_default (t : String) (defs : StructDefs) : Option String :=
  scalar_or_struct_default_f (structFuel defs 0) t defs

/-- `GlslInitializer::split_by_commas` (depth-0 commas; the depth counter is
an `i32` decremented with `saturating_sub`). -/
def split_by_commas_go : Chars → Int → Chars → List Chars → List Chars
  | [], _, cur, acc => acc ++ [cur]
  | c :: rest, depth, cur, acc =>
    if c = '(' ∨ c = '[' ∨ c = '{' then split_by_commas_go rest (depth + 1) (cur ++ [c]) acc
    else if c = ')' ∨ c = ']' ∨ c = '}' then
      split_by_commas_go rest (i32SatSub1 depth) (cur ++ [c]) acc
    else if c = ',' ∧ depth = 0 then split_by_commas_go rest depth [] (acc ++ [cur])
    else split_by_commas_go rest depth (cur ++ [c]) acc

def split_by_commas (s : Chars) : List Chars := split_by_commas_go s 0 [] []

/-- Index of the first occurrence of `c`. -/
def findFirstIdx (c : Char) (l : Chars) : Option Nat := List.findIdx? (fun x => x = c) l

/-- Index of the last occurrence of `c` (`str::rfind`). -/
def rfindIdx (c : Char) (l : Chars) : Option Nat :=
  match List.findIdx? (fun x => x = c) l.reverse with
  | some j => some (l.length - 1 - j)
  | none => none

/-- `GlslInitializer::process_variable_declarations`. -/
def process_variable_declarations (decl_str : Chars) (type_name : String)
    (defs : StructDefs) : Chars :=
  joinWith ", ".data ((split_by_commas decl_str).map (fun part =>
    let trimmed := rustTrim part
    if trimmed.isEmpty || trimmed.contains '=' || trimmed.contains '(' then trimmed
    else
      let specPart : Option Chars :=
        if trimmed.head? = some '[' then
          let endSpec := (rfindIdx ']' trimmed).elim 0 (fun i => i + 1)
          some (trimmed.take endSpec)
        else
          match findFirstIdx '[' trimmed with
          | some p => some (trimmed.drop p)
          | none => none
      let base_type : String := ⟨rustTrim (type_name.data.takeWhile (fun c => c ≠ '['))⟩
      let type_spec : Option Chars :=
        (findFirstIdx '[' type_name.data).map (fun i => type_name.data.drop i)
      let final_spec : Option Chars :=
        match type_spec, specPart with
        | some s1, some s2 => some (s1 ++ s2)
        | some s1, none => some s1
        | none, some s2 => some s2
        | none, none => none
      match default_value base_type (final_spec.map (fun l => (⟨l⟩ : String))) defs with
      | some dv => trimmed ++ " = ".data ++ dv.data
      | none => trimmed))

/-- Balanced-delimiter scan (`while i < len && depth > 0`), returning the
final index and the final depth. -/
def scan_depth_f : Nat → Chars → Nat → Nat → Char → Char → Nat × Nat
  | 0, _, i, depth, _, _ => (i, depth)
  | f + 1, cs, i, depth, openc, closec =>
    if i < cs.length ∧ depth > 0 then
      let c := cs.getD i ' '
      let depth' := if c = openc then depth + 1 else if c = closec then depth - 1 else depth
      scan_depth_f f cs (i + 1) depth' openc closec
    else (i, depth)

def scan_depth (cs : Chars) (i depth : Nat) (openc closec : Char) : Nat × Nat :=
  scan_depth_f (cs.length + 1) cs i depth openc closec

/-- Skip `u8::is_ascii_whitespace` characters from index `i`. -/
def skipWsIdx (cs : Chars) (i : Nat) : Nat :=
  i + ((cs.drop i).takeWhile byteIsWs).length

/-- `GlslInitializer::read_identifier` (caller guarantees an identifier
start at `start`). -/
def read_identifier (cs : Chars) (start : Nat) : Chars × Nat :=
  let tail := (cs.drop (start + 1)).takeWhile isIdentChar
  ((cs.drop start).take (1 + tail.length), start + 1 + tail.length)

/-- `GlslInitializer::skip_preprocessor_directive`. -/
def skip_preprocessor_directive (cs : Chars) (i : Nat) : Nat :=
  let j := i + 1
  j + ((cs.drop j).takeWhile (fun c => c ≠ '\n')).length

/-- `GlslInitializer::is_function_definition`. -/
def is_function_definition (cs : Chars) (i0 : Nat) : Bool :=
  let len := cs.length
  if i0 ≥ len then false
  else if !(isIdentStart (cs.getD i0 ' ')) then false
  else
    let i1 := i0 + ((cs.drop i0).takeWhile isIdentChar).length
    let i2 := skipWsIdx cs i1
    if i2 ≥ len then false
    else if cs.getD i2 ' ' ≠ '(' then false
    else
      let j := (scan_depth cs (i2 + 1) 1 '(' ')').1
      let k := skipWsIdx cs j
      decide (k < len) && (decide (cs.getD k ' ' = ';') || decide (cs.getD k ' ' = '{'))

/-- `GlslInitializer::find_declaration_end`: scan for a `;` at the starting
depth (stopping at `"`), tracking depth with the bracket-only equality. -/
def find_declaration_end_f :
    Nat → Chars → Nat → GlslDepthTracker → GlslDepthTracker → Option Nat
  | 0, _, _, _, _ => none
  | f + 1, cs, i, localDepth, startDepth =>
    if i < cs.length then
      let c := cs.getD i ' '
      if c = '"' then none
      else
        let d2 := (localDepth.update_brackets c).update_for_loop c
        if c = ';' ∧ (d2.bracketEq startDepth) = true then some i
        else find_declaration_end_f f cs (i + 1) d2 startDepth
    else none

def find_declaration_end (cs : Chars) (i : Nat) (startDepth : GlslDepthTracker) : Option Nat :=
  find_declaration_end_f (cs.length + 1) cs i startDepth startDepth

/-- `GlslInitializer::skip_to_declaration_end`. -/
def skip_to_declaration_end_f : Nat → Chars → Nat → GlslDepthTracker → Bool → Nat
  | 0, _, i, _, _ => i
  | f + 1, cs, i, depth, inString =>
    if i < cs.length then
      let c := cs.getD i ' '
      if inString then
        if c = '"' then skip_to_declaration_end_f f cs (i + 1) depth false
        else if c = '\\' ∧ i + 1 < cs.length then skip_to_declaration_end_f f cs (i + 2) depth true
        else skip_to_declaration_end_f f cs (i + 1) depth true
      else
        let d := depth.update_brackets c
        if c = '"' then skip_to_declaration_end_f f cs (i + 1) d true
        else if c = ';' ∧ d.at_global_scope = true then i + 1
        else skip_to_declaration_end_f f cs (i + 1) d false
    else i

def skip_to_declaration_end (cs : Chars) (i : Nat) : Nat :=
  skip_to_declaration_end_f (cs.length + 1) cs i GlslDepthTracker.default false

/-- One variable declarator of a struct body member declaration. -/
def memberOfVarPart (type_name : String) (vp : Chars) : Option StructMember :=
  let v := rustTrim vp
  if v.isEmpty then none
  else
    match findFirstIdx '[' v with
    | some pos => some ⟨type_name, ⟨v.take pos⟩, some ⟨v.drop pos⟩⟩
    | none => some ⟨type_name, ⟨v⟩, none⟩

/-- `GlslInitializer::parse_struct_body`: split the `{...}` body on `;`,
each declaration into a type and comma-separated declarators. -/
def parse_struct_body (body : Chars) : List StructMember :=
  ((splitOnChar ';' body).filter (fun s => rustTrim s ≠ [])).flatMap (fun decl =>
    match splitWs decl with
    | t :: rest =>
      if rest.isEmpty then []
      else
        (splitOnChar ',' rest.flatten).filterMap (memberOfVarPart ⟨t⟩)
    | [] => [])

/-- `GlslInitializer::parse_struct_definition`.  Returns `none` exactly when
the Rust code panics: the name lookup `self.source_bytes[i]` is reached with
`i` past the end when the source ends in whitespace right after `struct`. -/
def parse_struct_definition (cs : Chars) (i0 : Nat) (defs : StructDefs) :
    Option (Option String × Nat × StructDefs) :=
  let len := cs.length
  let i1 := skipWsIdx cs i0
  if i1 < len then
    let (struct_name, i2) :=
      if isIdentStart (cs.getD i1 ' ') then
        let (nm, ni) := read_identifier cs i1
        ((some (⟨nm⟩ : String) : Option String), ni)
      else (none, i1)
    let i3 := i2 + ((cs.drop i2).takeWhile (fun c => c ≠ '{')).length
    if i3 ≥ len then some (struct_name, i3, defs)
    else
      let start_brace := i3 + 1
      let (i5, depth) := scan_depth cs start_brace 1 '{' '}'
      if depth = 0 then
        match struct_name with
        | some nm =>
          let body := (cs.drop start_brace).take (i5 - 1 - start_brace)
          some (struct_name, i5, insertStruct defs nm ⟨nm, parse_struct_body body⟩)
        | none => some (struct_name, i5, defs)
      else some (struct_name, i5, defs)
  else none

/-- `GlslInitializer::process_type_declaration`. -/
def process_type_declaration (cs : Chars) (type_name : String) (start_pos : Nat)
    (depth : GlslDepthTracker) (defs : StructDefs) : Option ((Nat × Nat × Chars) × Nat) :=
  if type_name = "void" then none
  else if (depth.in_parentheses || depth.in_square_brackets) &&
      !depth.in_for_loop_initialization then none
  else
    let i := skipWsIdx cs start_pos
    if depth.at_global_scope && is_function_definition cs i then none
    else
      let type_end := i
      match find_declaration_end cs i depth with
      | none => none
      | some semi =>
        let decl_str := (cs.drop type_end).take (semi - type_end)
        let new_decl := process_variable_declarations decl_str type_name defs
        if new_decl ≠ [] ∧ new_decl ≠ decl_str then some ((type_end, semi, new_decl), semi + 1)
        else none

/-- The 28 built-in type names of `GlslInitializer::modifications`. -/
def BUILT_IN_TYPES : List Chars :=
  (["float", "int", "uint", "bool",
    "vec2", "vec3", "vec4",
    "mat2", "mat3", "mat4",
    "mat2x2", "mat2x3", "mat2x4",
    "mat3x2", "mat3x3", "mat3x4",
    "mat4x2", "mat4x3", "mat4x4",
    "ivec2", "ivec3", "ivec4",
    "uvec2", "uvec3", "uvec4",
    "bvec2", "bvec3", "bvec4"] : List String).map String.data

/-- The storage-qualifier keywords skipped at global scope. -/
def SKIP_QUALIFIERS : List Chars :=
  (["const", "uniform", "in", "out", "varying"] : List String).map String.data

/-- The scanning loop of `GlslInitializer::modifications`.  Every iteration
strictly advances the index, so `fuel = length + 1` always suffices; `none`
models a panic propagated from `parse_struct_definition`. -/
def scan_mods_f : Nat → Chars → Bool → GlslDepthTracker → Nat → Bool → StructDefs →
    List (Nat × Nat × Chars) → Option (List (Nat × Nat × Chars))
  | 0, _, _, _, _, _, _, mods => some mods
  | f + 1, cs, inString, depth, i, efp, defs, mods =>
    if i < cs.length then
      let c := cs.getD i ' '
      if inString then
        if c = '"' then scan_mods_f f cs false depth (i + 1) efp defs mods
        else if c = '\\' ∧ i + 1 < cs.length then scan_mods_f f cs true depth (i + 2) efp defs mods
        else scan_mods_f f cs true depth (i + 1) efp defs mods
      else if c = '"' then scan_mods_f f cs true depth (i + 1) efp defs mods
      else if c = '#' then
        scan_mods_f f cs false depth (skip_preprocessor_directive cs i) efp defs mods
      else
        let d2 := (depth.update_brackets c).update_for_loop c
        let armed := d2.in_parentheses ∧ efp = true
        let d3 := if armed then d2.start_for_loop_tracking else d2
        let efp' := if armed then false else efp
        if isIdentStart c then
          let (token, ni) := read_identifier cs i
          if token = "for".data then scan_mods_f f cs false d3 ni true defs mods
          else if token = "struct".data then
            match parse_struct_definition cs ni defs with
            | none => none
            | some (_, endPos, defs') => scan_mods_f f cs false d3 endPos efp' defs' mods
          else if SKIP_QUALIFIERS.contains token ∧ d3.at_global_scope = true then
            scan_mods_f f cs false d3 (skip_to_declaration_end cs ni) efp' defs mods
          else if BUILT_IN_TYPES.contains token ∨ containsStruct defs ⟨token⟩ then
            match process_type_declaration cs ⟨token⟩ ni d3 defs with
            | some (m, ni2) => scan_mods_f f cs false d3 ni2 efp' defs (mods ++ [m])
            | none => scan_mods_f f cs false d3 ni efp' defs mods
          else scan_mods_f f cs false d3 ni efp' defs mods
        else scan_mods_f f cs false d3 (i + 1) efp' defs mods
    else some mods

/-- `GlslInitializer::modifications`. -/
def modifications (cs : Chars) : Option (List (Nat × Nat × Chars)) :=
  scan_mods_f (cs.length + 1) cs false GlslDepthTracker.default 0 false [] []

/-- Apply the modifications in reverse (highest offset first). -/
def apply_modifications (cs : Chars) (mods : List (Nat × Nat × Chars)) : Chars :=
  mods.reverse.foldl (fun s m => replaceRange s m.1 m.2.1 m.2.2) cs

/-- `glsl_initializer::initialize_uninitialized_variables`. -/
def initialize_uninitialized_variables (source : String) : PPResult String :=
  match preprocess source with
  | .panicked => .panicked
  | .failed m n => .failed m n
  | .ok s =>
    let cs := s.data
    match modifications cs with
    | none => .panicked
    | some mods =>
      let spliced := apply_modifications cs mods
      .ok ⟨joinWith ['\n'] ((linesOf spliced).filter (fun l => rustTrim l ≠ []))⟩

/-! ## Version / reserved-word adapter (`shadertoy/mod.rs`) -/

/-- `DIFF_RESERVED_WORDS_4_2` (63 entries, `imageAtomicCompSwap` listed
twice, exactly as in the source). -/
def DIFF_RESERVED_WORDS_4_2 : List String :=
  ["double",
   "dvec2", "dvec3", "dvec4",
   "dmat2", "dmat3", "dmat4",
   "dmat2x2", "dmat2x3", "dmat2x4",
   "dmat3x2", "dmat3x3", "dmat3x4",
   "dmat4x2", "dmat4x3", "dmat4x4",
   "imageCubeArray", "iimageCubeArray", "uimageCubeArray",
   "image2DMS", "iimage2DMS", "uimage2DMS",
   "image2DMSArray", "iimage2DMSArray", "uimage2DMSArray",
   "uaddCarry", "usubBorrow", "umulExtended", "imulExtended",
   "bitfieldExtract", "bitfieldInsert", "bitfieldReverse",
   "bitCount", "findLSB", "findMSB",
   "textureQueryLod", "textureGather", "textureGatheOffset", "textureGatherOffsets",
   "atomicCounterIncrement", "atomicCounterDecrement", "atomicCounter",
   "imageLoad", "imageStore",
   "imageAtomicAdd", "imageAtomicMin", "imageAtomicMax",
   "imageAtomicAnd", "imageAtomicOr", "imageAtomicXor",
   "imageAtomicExchange", "imageAtomicCompSwap", "imageAtomicCompSwap",
   "interpolateAtCentroid", "interpolateAtSample", "interpolateAtOffset",
   "noise1", "noise2", "noise3", "noise4",
   "memoryBarrier",
   "packed", "precise"]

/-- `DIFF_RESERVED_WORDS_3_0_ES_REV_2`. -/
def DIFF_RESERVED_WORDS_3_0_ES_REV_2 : List String := ["packed"]

/-- `\bWORD\b` whole-word replacement (all the regexes so replaced use words
that start and end with identifier characters, so the word boundaries reduce
to "adjacent character is not an identifier character"); leftmost-first,
non-overlapping, replacements not rescanned. -/
def whole_word_replace_f : Nat → Chars → Chars → Option Char → Chars → Chars
  | 0, _, _, _, s => s
  | f + 1, word, repl, prev, s =>
    match s with
    | [] => []
    | c :: rest =>
      let prevOk := match prev with | none => true | some pc => !(isIdentChar pc)
      let nextOk :=
        match (s.drop word.length).head? with | none => true | some nc => !(isIdentChar nc)
      if charsStartsWith s word && prevOk && nextOk then
        repl ++ whole_word_replace_f f word repl (some (word.getLastD ' ')) (s.drop word.length)
      else c :: whole_word_replace_f f word repl (some c) rest

def whole_word_replace (word repl s : Chars) : Chars :=
  whole_word_replace_f (s.length + 1) word repl none s

/-- `rename_with_trailing_underscore` of `to_glsl_version`. -/
def rename_with_trailing_underscore (text : Chars) (word : String) : Chars :=
  whole_word_replace word.data (word.data ++ ['_']) text

/-- The prefix `^(\s*#(?:if|elif)\s+)` of a conditional line: its length, if
the line matches. -/
def condLinePrefix (line : Chars) : Option Nat :=
  let ws := (line.takeWhile rustIsWs).length
  match (line.drop ws).head? with
  | some '#' =>
    let r := line.drop (ws + 1)
    if charsStartsWith r "if".data ∧
        (match (r.drop 2).head? with | some c => rustIsWs c | none => false) = true then
      some (ws + 1 + 2 + ((r.drop 2).takeWhile rustIsWs).length)
    else if charsStartsWith r "elif".data ∧
        (match (r.drop 4).head? with | some c => rustIsWs c | none => false) = true then
      some (ws + 1 + 4 + ((r.drop 4).takeWhile rustIsWs).length)
    else none
  | _ => none

/-- `glsl_utils::replace_in_preprocessor_conditionals`: whole-word
replacement inside the condition part of `#if`/`#elif` lines only. -/
def replace_in_preprocessor_conditionals (code : Chars) (find repl : Chars) : Chars :=
  joinWith ['\n'] ((splitOnChar '\n' code).map (fun line =>
    match condLinePrefix line with
    | some pfxLen => line.take pfxLen ++ whole_word_replace find repl (line.drop pfxLen)
    | none => line))

/-- `shadertoy::to_glsl_version`. -/
def to_glsl_version (source : String) (version : Int × Int) (glsl_es : Bool) : PPResult String :=
  let glsl_version : String := toString version.1 ++ toString version.2 ++ "0"
  let s1 := replace_in_preprocessor_conditionals source.data "GL_ES".data "SHADERBG".data
  let s2 := replace_in_preprocessor_conditionals s1 "__VERSION__".data glsl_version.data
  match initialize_uninitialized_variables ⟨s2⟩ with
  | .panicked => .panicked
  | .failed m n => .failed m n
  | .ok out =>
    let r1 :=
      if version = ((3 : Int), (0 : Int)) ∧ glsl_es = true then
        DIFF_RESERVED_WORDS_3_0_ES_REV_2.foldl rename_with_trailing_underscore out.data
      else out.data
    let r2 :=
      if version = ((4 : Int), (2 : Int)) ∧ glsl_es = false then
        DIFF_RESERVED_WORDS_4_2.foldl rename_with_trailing_underscore r1
      else r1
    .ok ⟨r2⟩

/-! ## Shared auxiliary definitions and lemmas for the theorems -/

/-- The directive keywords recognized by the dispatch in
`GlslPreprocessor::run`. -/
def recognized_directives : List Chars :=
  (["define", "undef", "ifdef", "ifndef", "if", "elif", "else", "endif",
    "error", "pragma", "extension", "version", "line"] : List String).map String.data

/-- Specification-side description of struct member defaults (the wording of
the specification): the default of each member, synthesized recursively in
member order, with `none` as soon as any member's default cannot be
resolved.  Compared below against the source's `scalar_or_struct_default`. -/
def memberDefaultsSpec (fuel : Nat) (defs : StructDefs) : List StructMember → Option (List String)
  | [] => some []
  | m :: ms =>
    match default_value_f fuel m.type_name m.array_specifier defs with
    | some d => (memberDefaultsSpec fuel defs ms).map (fun ds => d :: ds)
    | none => none

/-- When the spec-side member-default list resolves, it coincides with the
source's `filterMap` and has full length. -/
theorem memberDefaultsSpec_some (fuel : Nat) (defs : StructDefs) :
    ∀ (ms : List StructMember) (ds : List String),
      memberDefaultsSpec fuel defs ms = some ds →
      ms.filterMap (fun m => default_value_f fuel m.type_name m.array_specifier defs) = ds ∧
        ds.length = ms.length := by
  intro ms
  induction ms with
  | nil =>
    intro ds h
    simp [memberDefaultsSpec] at h
    subst h
    simp
  | cons m ms ih =>
    intro ds h
    simp only [memberDefaultsSpec] at h
    cases hd : default_value_f fuel m.type_name m.array_specifier defs with
    | none => rw [hd] at h; simp at h
    | some d =>
      rw [hd] at h
      cases hrest : memberDefaultsSpec fuel defs ms with
      | none => rw [hrest] at h; simp at h
      | some ds' =>
        rw [hrest] at h
        simp at h
        obtain ⟨hfm, hlen⟩ := ih ds' hrest
        subst h
        simp [List.filterMap_cons, hd, hfm, hlen]

/-- When the spec-side member-default list does not resolve, the source's
`filterMap` is shorter than the member list. -/
theorem memberDefaultsSpec_none (fuel : Nat) (defs : StructDefs) :
    ∀ ms : List StructMember,
      memberDefaultsSpec fuel defs ms = none →
      (ms.filterMap (fun m => default_value_f fuel m.type_name m.array_specifier defs)).length ≠
        ms.length := by
  intro ms
  induction ms with
  | nil => intro h; simp [memberDefaultsSpec] at h
  | cons m ms ih =>
    intro h
    simp only [memberDefaultsSpec] at h
    cases hd : default_value_f fuel m.type_name m.array_specifier defs with
    | none =>
      have hle := List.length_filterMap_le
        (fun m => default_value_f fuel m.type_name m.array_specifier defs) ms
      simp only [List.filterMap_cons, hd, List.length_cons]
      omega
    | some d =>
      rw [hd] at h
      cases hrest : memberDefaultsSpec fuel defs ms with
      | some ds' => rw [hrest] at h; simp at h
      | none =>
        have hne := ih hrest
        simp only [List.filterMap_cons, hd, List.length_cons]
        omega

/-- The macro table defined by `#define FOO .4` and `#define BAR (FOO * 4.)`. -/
def chained_macro_defines : Defines :=
  [("FOO".data, ⟨none, ".4".data⟩), ("BAR".data, ⟨none, "(FOO * 4.)".data⟩)]

/-- A registered struct whose name begins with the `vec` prefix. -/
def vecData_defs : StructDefs :=
  [("vecData", ⟨"vecData", [⟨"int", "x", none⟩, ⟨"int", "y", none⟩]⟩)]

/-- A registered struct with a scalar and a vector member. -/
def light_members : List StructMember := [⟨"float", "intensity", none⟩, ⟨"vec3", "dir", none⟩]

def light_defs : StructDefs := [("Light", ⟨"Light", light_members⟩)]

/-! ## Claim theorems -/

/-- Claim C1, counterexample.  The claim states that bitwise-and binds
looser than equality, so that `1 & 2 == 2` evaluates as `1 & (2 == 2)`,
which is `1 &&& 1 = 1`, a taken condition.  On the code the condition
evaluates to `false`: `parse_bitwise_xor` calls `parse_equality`, whose
operands are `parse_bitwise_and`, so `&` binds tighter than `==` and the
expression evaluates as `(1 & 2) == 2 = 0`. -/
theorem bitwise_and_equality_precedence_counterexample :
    evaluate_if_expr [] "1 & 2 == 2".data = false ∧
    Int.land 1 (if (2 : Int) = 2 then 1 else 0) ≠ 0 := by
  constructor
  · decide
  · decide

/-- Claim C1, amended.  The `#if`/`#elif` evaluator parses with precedence,
from loosest to tightest: logical-or `||`, logical-and `&&`, logical-xor
`^^`, bitwise-or `|`, bitwise-xor `^`, equality `==`/`!=`, bitwise-and `&`,
relational, shift, additive, multiplicative, unary, primary — i.e. the
claimed chain with equality and bitwise-and swapped — so `1 & 2 == 2`
evaluates as `(1 & 2) == 2 = 0`.  Each conjunct pins one adjacent pair of
the chain on a generic three-operand token list (and the unary and
parenthesized-primary cases). -/
theorem if_expr_precedence_amended :
    (∀ a b c : Int, parse_expression [.number a, .op "||", .number b, .op "&&", .number c] =
      (if a ≠ 0 ∨ (if b ≠ 0 ∧ c ≠ 0 then (1 : Int) else 0) ≠ 0 then (1 : Int) else 0, 5)) ∧
    (∀ a b c : Int, parse_expression [.number a, .op "&&", .number b, .op "^^", .number c] =
      (if a ≠ 0 ∧ (if (b ≠ 0) ≠ (c ≠ 0) then (1 : Int) else 0) ≠ 0 then (1 : Int) else 0, 5)) ∧
    (∀ a b c : Int, parse_expression [.number a, .op "^^", .number b, .op "|", .number c] =
      (if (a ≠ 0) ≠ (Int.lor b c ≠ 0) then (1 : Int) else 0, 5)) ∧
    (∀ a b c : Int, parse_expression [.number a, .op "|", .number b, .op "^", .number c] =
      (Int.lor a (Int.xor b c), 5)) ∧
    (∀ a b c : Int, parse_expression [.number a, .op "^", .number b, .op "==", .number c] =
      (Int.xor a (if b = c then (1 : Int) else 0), 5)) ∧
    (∀ a b c : Int, parse_expression [.number a, .op "==", .number b, .op "&", .number c] =
      (if a = Int.land b c then (1 : Int) else 0, 5)) ∧
    (∀ a b c : Int, parse_expression [.number a, .op "&", .number b, .op "==", .number c] =
      (if Int.land a b = c then (1 : Int) else 0, 5)) ∧
    (∀ a b c : Int, parse_expression [.number a, .op "&", .number b, .op "<", .number c] =
      (Int.land a (if b < c then (1 : Int) else 0), 5)) ∧
    (∀ a b c : Int, parse_expression [.number a, .op "<", .number b, .op "<<", .number c] =
      (if a < wrapShl b c then (1 : Int) else 0, 5)) ∧
    (∀ a b c : Int, parse_expression [.number a, .op "<<", .number b, .op "+", .number c] =
      (wrapShl a (wrapAdd b c), 5)) ∧
    (∀ a b c : Int, parse_expression [.number a, .op "+", .number b, .op "*", .number c] =
      (wrapAdd a (wrapMul b c), 5)) ∧
    (∀ a b : Int, parse_expression [.op "-", .number a, .op "*", .number b] =
      (wrapMul (wrapNeg a) b, 4)) ∧
    (∀ a b : Int, parse_expression [.op "~", .number a, .op "+", .number b] =
      (wrapAdd (-a - 1) b, 4)) ∧
    (∀ a b c : Int,
      parse_expression [.lparen, .number a, .op "||", .number b, .rparen, .op "*", .number c] =
      (wrapMul (if a ≠ 0 ∨ b ≠ 0 then (1 : Int) else 0) c, 7)) ∧
    parse_expression [.number 1, .op "&", .number 2, .op "==", .number 2] = (0, 5) :=
  ⟨fun a _ _ => rfl, fun _ b _ => rfl, fun _ _ c => rfl, fun d _ _ => rfl,
   fun _ e _ => rfl, fun _ _ g => rfl, fun h _ _ => rfl, fun _ i _ => rfl,
   fun _ _ j => rfl, fun k _ _ => rfl, fun _ m _ => rfl, fun n _ => rfl,
   fun _ p => rfl, fun q _ _ => rfl, by decide⟩

/-- Claim C2, counterexample.  For the registered struct type `vecData`
(members `int x; int y;`), the claim demands the member-wise constructor
`vecData(0, 0)`; the code's `scalar_or_struct_default` tests the built-in
prefixes before consulting the struct table and yields `vecData(0.0)`. -/
theorem struct_default_builtin_prefix_counterexample :
    scalar_or_struct_default "vecData" vecData_defs = some "vecData(0.0)" ∧
    some "vecData(0.0)" ≠ some "vecData(0, 0)" := by
  constructor
  · decide
  · decide

/-- Claim C2, amended.  For every registered struct type `T` whose name is
not one of the scalar keywords and does not begin with `vec`, `mat`,
`ivec`, `uvec` or `bvec`, the synthesized default is the constructor call
`T(d1, ..., dn)` where `di` is the recursively synthesized default of the
i-th member in member order, and no initializer is produced if any member
default is unresolvable (never a partial list).  Struct names caught by a
built-in prefix instead receive the built-in-style default (see the
counterexample). -/
theorem struct_default_memberwise (fuel : Nat) (T : String) (defs : StructDefs)
    (sd : StructDefinition)
    (h1 : T ≠ "float") (h2 : T ≠ "int") (h3 : T ≠ "uint") (h4 : T ≠ "bool")
    (h5 : charsStartsWith T.data "vec".data = false)
    (h6 : charsStartsWith T.data "mat".data = false)
    (h7 : charsStartsWith T.data "ivec".data = false)
    (h8 : charsStartsWith T.data "uvec".data = false)
    (h9 : charsStartsWith T.data "bvec".data = false)
    (hT : lookupStruct defs T = some sd) :
    scalar_or_struct_default_f (fuel + 1) T defs =
      match memberDefaultsSpec fuel defs sd.members with
      | some ds => some (T ++ "(" ++ String.intercalate ", " ds ++ ")")
      | none => none := by
  simp only [scalar_or_struct_default_f]
  rw [if_neg h1, if_neg h2, if_neg h3, if_neg h4, if_neg (by simp [h5, h6]),
    if_neg (by simp [h7]), if_neg (by simp [h8]), if_neg (by simp [h9]), hT]
  cases hmd : memberDefaultsSpec fuel defs sd.members with
  | some ds =>
    obtain ⟨hfm, hlen⟩ := memberDefaultsSpec_some fuel defs sd.members ds hmd
    simp [hfm, hlen]
  | none =>
    have hne := memberDefaultsSpec_none fuel defs sd.members hmd
    simp only [if_neg hne]

/-- Witness for the amended claim C2 at the struct
`struct Light { float intensity; vec3 dir; }`. -/
theorem struct_default_memberwise_witness :
    scalar_or_struct_default_f 6 "Light" light_defs =
      match memberDefaultsSpec 5 light_defs light_members with
      | some ds => some ("Light" ++ "(" ++ String.intercalate ", " ds ++ ")")
      | none => none :=
  struct_default_memberwise 5 "Light" light_defs ⟨"Light", light_members⟩
    (by decide) (by decide) (by decide) (by decide) (by decide) (by decide)
    (by decide) (by decide) (by decide) (by decide)

/-- Claim C3.  The claim states the three depth counters saturate at zero
and that `at_global_scope` still reports `true` after an unmatched closing
delimiter at top level.  The code decrements with `i32::saturating_sub(1)`,
which saturates at `i32::MIN`, not zero: from the default state a closing
delimiter drives the counter to `-1` and `at_global_scope` reports
`false`. -/
theorem depth_counters_go_negative :
    (GlslDepthTracker.default.update_brackets '}').brace = -1 ∧
    (GlslDepthTracker.default.update_brackets '}').at_global_scope = false ∧
    (GlslDepthTracker.default.update_brackets ')').paren = -1 ∧
    (GlslDepthTracker.default.update_brackets ']').bracket = -1 ∧
    i32SatSub1 0 = -1 := by
  decide

/-- Claim C4.  The claim describes `#error` reporting for every input, but
on the directive `#error '` — remaining text a single quote character, so
that both the starts-with and ends-with quote tests succeed — the Rust code
slices `error_message[1..0]` and panics instead of returning a
`PreprocessError`. -/
theorem error_directive_lone_quote_panics :
    preprocess "#error '" = PPResult.panicked ∧
    handle_error (rustTrim "#error '".data) 1 = none := by
  constructor
  · decide
  · decide

/-- Claim C5.  A directive line whose keyword is not in the recognized set
fails immediately with `PreprocessError ("Unknown directive (<name>)",
line_number)` regardless of the conditional-branch state, while `#define`,
`#undef` and `#error` on an inactive branch are no-ops (only the line
counter advances). -/
theorem unknown_directive_and_gating :
    (∀ (st : PPState) (line : Chars) (rest : List Chars) (d : Chars),
      (rustTrim line).head? = some '#' →
      get_directive_name (rustTrim line) = some d →
      d ∉ recognized_directives →
      run_lines st (line :: rest) =
        PPResult.failed ("Unknown directive (" ++ (⟨d⟩ : String) ++ ")") (st.line + 1)) ∧
    (∀ (st : PPState) (line : Chars),
      is_active st.ifStack = false →
      (rustTrim line).head? = some '#' →
      (get_directive_name (rustTrim line) = some "define".data ∨
       get_directive_name (rustTrim line) = some "undef".data ∨
       get_directive_name (rustTrim line) = some "error".data) →
      stepLine st line = PPResult.ok { st with line := st.line + 1 }) := by
  constructor
  · intro st line rest d h1 h2 h3
    simp only [recognized_directives, List.map, List.mem_cons, List.not_mem_nil, or_false,
      not_or] at h3
    obtain ⟨n1, n2, n3, n4, n5, n6, n7, n8, n9, n10, n11, n12, n13⟩ := h3
    have hstep : stepLine st line =
        PPResult.failed ("Unknown directive (" ++ (⟨d⟩ : String) ++ ")") (st.line + 1) := by
      simp only [stepLine, h1, h2]
      simp [n1, n2, n3, n4, n5, n6, n7, n8, n9, n10, n11, n12, n13]
      split <;> rfl
    simp only [run_lines, hstep]
  · intro st line hact h1 h2
    rcases h2 with h2 | h2 | h2 <;>
      · simp only [stepLine, h1, h2]
        simp [hact]

/-- Witness for claim C5: `#foo bar` aborts from an empty stack, and an
inactive `#define` only bumps the line counter. -/
theorem unknown_directive_and_gating_witness :
    run_lines ⟨[], [], 0, [], []⟩ ["#foo bar".data] =
      PPResult.failed ("Unknown directive (" ++ (⟨"foo".data⟩ : String) ++ ")") (0 + 1) ∧
    stepLine ⟨[], [BranchState.searching], 5, ['x'], []⟩ "#define X 1".data =
      PPResult.ok ⟨[], [BranchState.searching], 6, ['x'], []⟩ :=
  ⟨unknown_directive_and_gating.1 ⟨[], [], 0, [], []⟩ "#foo bar".data [] "foo".data
      (by decide) (by decide) (by decide),
   unknown_directive_and_gating.2 ⟨[], [BranchState.searching], 5, ['x'], []⟩
      "#define X 1".data (by decide) (by decide) (Or.inl (by decide))⟩

/-- Claim C6.  The conditional evaluator never raises an error: a
tokenization failure or leftover unconsumed tokens make the condition
`false` instead of aborting; division and modulo by zero evaluate the
subterm to `0`; the arithmetic combiners use two's-complement wrapping.
(The evaluator is stated over the expression text reaching the tokenizer,
i.e. after `defined` rewriting and macro expansion.) -/
theorem if_expr_evaluator_lenient :
    (∀ s : Chars, tokenize s = .error () → evaluate_parsed_condition s = false) ∧
    (∀ (s : Chars) (ts : List Token), tokenize s = .ok ts →
      (parse_expression ts).2 ≠ ts.length → evaluate_parsed_condition s = false) ∧
    (∀ s : Chars, evaluate_parsed_condition s = true ∨ evaluate_parsed_condition s = false) ∧
    (∀ a : Int, parse_expression [.number a, .op "/", .number 0] = (0, 3)) ∧
    (∀ a : Int, parse_expression [.number a, .op "%", .number 0] = (0, 3)) ∧
    (∀ a b : Int, parse_expression [.number a, .op "+", .number b] = (wrapAdd a b, 3)) ∧
    (∀ a b : Int, parse_expression [.number a, .op "-", .number b] = (wrapSub a b, 3)) ∧
    (∀ a b : Int, parse_expression [.number a, .op "*", .number b] = (wrapMul a b, 3)) := by
  refine ⟨?_, ?_, ?_, fun _ => rfl, fun _ => rfl, fun _ _ => rfl, fun _ _ => rfl,
    fun _ _ => rfl⟩
  · intro s h
    simp [evaluate_parsed_condition, h]
  · intro s ts h hne
    unfold evaluate_parsed_condition
    rw [h]
    by_cases hts : ts = []
    · simp [hts]
    · simp only [hts, if_false, if_neg hts]
      rcases hpe : parse_expression ts with ⟨r, i⟩
      rw [hpe] at hne
      simp at hne
      simp [hne]
  · intro s
    cases evaluate_parsed_condition s
    · exact Or.inr rfl
    · exact Or.inl rfl

/-- Witness for claim C6: an un-tokenizable expression (`@`) and an
expression with a leftover token (`1)`) both evaluate to `false`. -/
theorem if_expr_evaluator_lenient_witness :
    evaluate_parsed_condition "@".data = false ∧
    evaluate_parsed_condition "1)".data = false :=
  ⟨if_expr_evaluator_lenient.1 "@".data rfl,
   if_expr_evaluator_lenient.2.1 "1)".data [Token.number 1, Token.rparen]
     rfl (by decide)⟩

set_option maxRecDepth 40000 in
/-- Claim C7.  The uninitialized declaration `vec2[2][3] points;` is
rewritten to exactly the claimed constructor nest (outermost dimension 3,
each element the fully initialized inner array), and an array whose
dimension list contains a zero anywhere receives no initializer. -/
theorem array_initializer_synthesis :
    initialize_uninitialized_variables "vec2[2][3] points;" =
      PPResult.ok "vec2[2][3] points = vec2[2][3](vec2[2](vec2(0.0), vec2(0.0)), vec2[2](vec2(0.0), vec2(0.0)), vec2[2](vec2(0.0), vec2(0.0)));" ∧
    (∀ (base spec : String) (defs : StructDefs),
      (extract_dims spec.data).contains 0 = true →
      default_value base (some spec) defs = none) := by
  constructor
  · decide
  · intro base spec defs h
    have hfuel : structFuel defs ((some spec).elim 0 String.length) =
        8 * defs.length + spec.length + 15 + 1 := by
      simp [structFuel]
      ring
    unfold default_value
    rw [hfuel]
    have hmem : (0 : Nat) ∈ extract_dims spec.data := by simpa using h
    simp only [default_value_f]
    simp [hmem]

/-- Witness for claim C7 at the zero-sized specifier `[0]`. -/
theorem array_initializer_synthesis_witness :
    (extract_dims "[0]".data).contains 0 = true ∧
    default_value "float" (some "[0]") [] = none :=
  ⟨by decide, array_initializer_synthesis.2 "float" "[0]" [] (by decide)⟩

/-- Claim C8.  Macro expansion iterates to a fixed point: with
`#define FOO .4` and `#define BAR (FOO * 4.)`, the line `BAR` first expands
to `(FOO * 4.)` (the single-level result), a further pass rewrites it to
`(.4 * 4.)`, and on `(.4 * 4.)` no further expansion exists; the full
preprocessor therefore emits `(.4 * 4.)`, not the one-level result. -/
theorem macro_expansion_fixed_point :
    preprocess "#define FOO .4\n#define BAR (FOO * 4.)\nBAR" = PPResult.ok "(.4 * 4.)\n" ∧
    find_earliest_expansion chained_macro_defines "BAR\n".data =
      some (0, 3, "(FOO * 4.)".data) ∧
    expand_macros_f 3 chained_macro_defines "BAR\n".data = "(.4 * 4.)\n".data ∧
    find_earliest_expansion chained_macro_defines "(.4 * 4.)\n".data = none := by
  refine ⟨by decide, by decide, by decide, by decide⟩

/-- The 63-entry reserved-word table split into nine blocks of seven, in
order (the per-block renaming checks below keep each kernel evaluation
small). -/
def rw42c0 : List String :=
  ["double", "dvec2", "dvec3", "dvec4", "dmat2", "dmat3", "dmat4"]

def rw42c1 : List String :=
  ["dmat2x2", "dmat2x3", "dmat2x4", "dmat3x2", "dmat3x3", "dmat3x4", "dmat4x2"]

def rw42c2 : List String :=
  ["dmat4x3", "dmat4x4", "imageCubeArray", "iimageCubeArray", "uimageCubeArray",
   "image2DMS", "iimage2DMS"]

def rw42c3 : List String :=
  ["uimage2DMS", "image2DMSArray", "iimage2DMSArray", "uimage2DMSArray",
   "uaddCarry", "usubBorrow", "umulExtended"]

def rw42c4 : List String :=
  ["imulExtended", "bitfieldExtract", "bitfieldInsert", "bitfieldReverse",
   "bitCount", "findLSB", "findMSB"]

def rw42c5 : List String :=
  ["textureQueryLod", "textureGather", "textureGatheOffset", "textureGatherOffsets",
   "atomicCounterIncrement", "atomicCounterDecrement", "atomicCounter"]

def rw42c6 : List String :=
  ["imageLoad", "imageStore", "imageAtomicAdd", "imageAtomicMin", "imageAtomicMax",
   "imageAtomicAnd", "imageAtomicOr"]

def rw42c7 : List String :=
  ["imageAtomicXor", "imageAtomicExchange", "imageAtomicCompSwap",
   "imageAtomicCompSwap", "interpolateAtCentroid", "interpolateAtSample",
   "interpolateAtOffset"]

def rw42c8 : List String :=
  ["noise1", "noise2", "noise3", "noise4", "memoryBarrier", "packed", "precise"]

theorem rw42_split :
    DIFF_RESERVED_WORDS_4_2 =
      rw42c0 ++ rw42c1 ++ rw42c2 ++ rw42c3 ++ rw42c4 ++ rw42c5 ++ rw42c6 ++
        rw42c7 ++ rw42c8 := by
  rfl

set_option maxRecDepth 100000 in
set_option maxHeartbeats 4000000 in
theorem rw42_all0 :
    (rw42c0.all
      (fun w => to_glsl_version w (4, 2) false = PPResult.ok (w ++ "_"))) = true := by
  decide

set_option maxRecDepth 100000 in
set_option maxHeartbeats 4000000 in
theorem rw42_all1 :
    (rw42c1.all
      (fun w => to_glsl_version w (4, 2) false = PPResult.ok (w ++ "_"))) = true := by
  decide

set_option maxRecDepth 100000 in
set_option maxHeartbeats 4000000 in
theorem rw42_all2 :
    (rw42c2.all
      (fun w => to_glsl_version w (4, 2) false = PPResult.ok (w ++ "_"))) = true := by
  decide

set_option maxRecDepth 100000 in
set_option maxHeartbeats 4000000 in
theorem rw42_all3 :
    (rw42c3.all
      (fun w => to_glsl_version w (4, 2) false = PPResult.ok (w ++ "_"))) = true := by
  decide

set_option maxRecDepth 100000 in
set_option maxHeartbeats 4000000 in
theorem rw42_all4 :
    (rw42c4.all
      (fun w => to_glsl_version w (4, 2) false = PPResult.ok (w ++ "_"))) = true := by
  decide

set_option maxRecDepth 100000 in
set_option maxHeartbeats 4000000 in
theorem rw42_all5 :
    (rw42c5.all
      (fun w => to_glsl_version w (4, 2) false = PPResult.ok (w ++ "_"))) = true := by
  decide

set_option maxRecDepth 100000 in
set_option maxHeartbeats 4000000 in
theorem rw42_all6 :
    (rw42c6.all
      (fun w => to_glsl_version w (4, 2) false = PPResult.ok (w ++ "_"))) = true := by
  decide

set_option maxRecDepth 100000 in
set_option maxHeartbeats 4000000 in
theorem rw42_all7 :
    (rw42c7.all
      (fun w => to_glsl_version w (4, 2) false = PPResult.ok (w ++ "_"))) = true := by
  decide

set_option maxRecDepth 100000 in
set_option maxHeartbeats 4000000 in
theorem rw42_all8 :
    (rw42c8.all
      (fun w => to_glsl_version w (4, 2) false = PPResult.ok (w ++ "_"))) = true := by
  decide

set_option maxRecDepth 100000 in
set_option maxHeartbeats 4000000 in
/-- Claim C9.  For each of the 63 entries of the GLSL 4.20 reserved-word
table, transpiling the bare word with target version `(4,2)`, desktop
flavor, yields exactly the word with a trailing underscore; renaming is
whole-word only, so `precise_variable` is left unchanged. -/
theorem reserved_word_renaming_4_2 :
    (DIFF_RESERVED_WORDS_4_2.all
      (fun w => to_glsl_version w (4, 2) false = PPResult.ok (w ++ "_"))) = true ∧
    to_glsl_version "precise_variable" (4, 2) false = PPResult.ok "precise_variable" := by
  constructor
  · rw [rw42_split]
    simp only [List.all_append, rw42_all0, rw42_all1, rw42_all2, rw42_all3,
      rw42_all4, rw42_all5, rw42_all6, rw42_all7, rw42_all8, Bool.and_self]
  · decide

/-- Claim C10.  The claim states the public entry points never panic,
naming two edge cases; both in fact panic.  Here the initializer input
`struct ` (source ending right after the keyword plus whitespace) drives
`parse_struct_definition` to index one past the end of the byte buffer —
`initialize_uninitialized_variables` panics rather than returning `Ok` or
`Err` (the `#error '` panic of the other named edge case is
`error_directive_lone_quote_panics`). -/
theorem initializer_struct_eof_panics :
    initialize_uninitialized_variables "struct " = PPResult.panicked ∧
    parse_struct_definition "struct \n".data 6 [] = none := by
  constructor
  · decide
  · decide

end ShaderBG


